import Mathlib

/-!
# SDACTS product-management server: session registry, access control, credentials, search

A shallow embedding of `src/go/main.go`.  Go package-level variables (`sessions`, `db`)
become explicit state that every function takes and returns; each call of `time.Now()`
becomes an explicit clock-reading argument (nanoseconds, as an integer); Go strings are
Lean strings and Go's `len` is the UTF-8 byte size.
-/

namespace SDACTS

/-! ## Session store (main.go lines 26-71) -/

/-- Go `type session struct { username string; expiresAt time.Time }`; the instant is
counted in nanoseconds. -/
structure session where
  username : String
  expiresAt : Int
  deriving DecidableEq, Repr

/-- The Go `map[string]session` held in the package variable `sessions`, as an
association list read from the front. -/
abbrev Sessions := List (String × session)

/-- Go map read `s, ok := m[k]`: `none` stands for `ok = false`. -/
def mapGet (m : Sessions) (k : String) : Option session :=
  List.lookup k m

/-- Go map write `m[k] = v`: any earlier binding of `k` is replaced. -/
def mapSet (m : Sessions) (k : String) (v : session) : Sessions :=
  (k, v) :: m.filter (fun e => e.1 != k)

/-- Go builtin `delete(m, k)`: a no-op when `k` is not a key. -/
def mapDelete (m : Sessions) (k : String) : Sessions :=
  m.filter (fun e => e.1 != k)

/-- Go `const sessionCookieName = "pms_session"`. -/
def sessionCookieName : String := "pms_session"

/-- Go `const sessionDuration = 8 * time.Hour`, in nanoseconds. -/
def sessionDuration : Int := 8 * 3600000000000

/-- Go `fmt.Sprintf("%d", n)` for a signed integer: an optional minus sign and the decimal
digits of the magnitude. -/
def sprintfD (n : Int) : String :=
  if n < 0 then String.mk ('-' :: Nat.toDigits 10 n.natAbs)
  else String.mk (Nat.toDigits 10 n.toNat)

/-- Go `newSessionToken`: the decimal rendering of `time.Now().UnixNano()`; `unixNano` is
that clock reading. -/
def newSessionToken (unixNano : Int) : String :=
  sprintfD unixNano

/-- Go `createSession`: reads the clock once for the token (`unixNano`) and once more for
the expiry (`now`), stores the entry under the token and returns the token together
with the updated map. -/
def createSession (sessions : Sessions) (username : String) (unixNano now : Int) :
    String × Sessions :=
  let token := newSessionToken unixNano
  (token, mapSet sessions token { username := username, expiresAt := now + sessionDuration })

/-- The parts of `*http.Request` the handlers read: the method, the cookies of the
Cookie header in order, the parsed URL query, and the outcome of decoding the body as
`{username, password}` JSON (`none` when `Decode` returns an error). -/
structure Request where
  method : String
  cookies : List (String × String)
  query : List (String × String)
  creds : Option (String × String)
  deriving DecidableEq, Repr

/-- Go `r.Cookie(name)`: the value of the first cookie with that name, `none` for
`http.ErrNoCookie`. -/
def Request.Cookie (r : Request) (name : String) : Option String :=
  List.lookup name r.cookies

/-- Go `getSession`: only reads the map. `now` is the reading of `time.Now()`;
`time.Now().After(s.expiresAt)` is `now > s.expiresAt`. -/
def getSession (sessions : Sessions) (r : Request) (now : Int) : String × Bool :=
  match r.Cookie sessionCookieName with
  | none => ("", false)
  | some value =>
    match mapGet sessions value with
    | none => ("", false)
    | some s => if now > s.expiresAt then ("", false) else (s.username, true)

/-- Go `deleteSession`. -/
def deleteSession (sessions : Sessions) (token : String) : Sessions :=
  mapDelete sessions token

/-- Operations on the session store as the rest of the program issues them. -/
inductive SessionOp where
  | create (username : String) (unixNano now : Int)
  | get (r : Request) (now : Int)
  | delete (token : String)
  deriving DecidableEq, Repr

/-- The session map after one operation: `createSession` and `deleteSession` write under
the lock, `getSession` takes the read lock and writes nothing. -/
def SessionOp.apply (sessions : Sessions) : SessionOp → Sessions
  | .create username unixNano now => (createSession sessions username unixNano now).2
  | .get _ _ => sessions
  | .delete token => deleteSession sessions token

/-- A request that carries only the session cookie with the given value. -/
def requestWithToken (token : String) : Request :=
  { method := "GET", cookies := [(sessionCookieName, token)], query := [], creds := none }

/-! ## HTTP plumbing -/

/-- A cookie as passed to `http.SetCookie`, with the fields the program sets. -/
structure Cookie where
  name : String
  value : String
  path : String
  httpOnly : Bool
  maxAge : Int
  deriving DecidableEq, Repr

/-- A value of a `map[string]interface{}` literal handed to the JSON encoder. -/
inductive JsonAtom where
  | bool (b : Bool)
  | str (s : String)
  deriving DecidableEq, Repr

/-- Go `type Product struct`. `Price` carries the `DECIMAL(10,2)` column value in
hundredths; the Go field holds the `float64` scanned from it. -/
structure Product where
  ID : Int
  Name : String
  Price : Int
  Quantity : Int
  deriving DecidableEq, Repr

/-- One write to the response body. `jsonMap` is `json.NewEncoder(w).Encode(map...)` with
the entries in source order (a Go map is unordered), `jsonProducts` is the encoding of a
`[]Product`, `text` is a plain-text body. -/
inductive Written where
  | jsonMap (fields : List (String × JsonAtom))
  | jsonProducts (products : List Product)
  | text (s : String)
  deriving DecidableEq, Repr

/-- The observable state of an `http.ResponseWriter`: the header map, the status code
once written, the cookies added with `http.SetCookie`, and the body writes in order. -/
structure ResponseWriter where
  header : List (String × String)
  status : Option Nat
  cookies : List Cookie
  body : List Written
  deriving DecidableEq, Repr

/-- The writer the server hands to a handler at the start of a request. -/
def ResponseWriter.fresh : ResponseWriter :=
  { header := [], status := none, cookies := [], body := [] }

/-- Go `w.Header().Set(key, value)`: replaces the values of `key`. -/
def ResponseWriter.headerSet (w : ResponseWriter) (key value : String) : ResponseWriter :=
  { w with header := (key, value) :: w.header.filter (fun e => e.1 != key) }

/-- Go `w.Header().Get(key)`. -/
def ResponseWriter.headerGet (w : ResponseWriter) (key : String) : Option String :=
  List.lookup key w.header

/-- Go `w.WriteHeader(code)`: the first call fixes the status, a later one is ignored. -/
def ResponseWriter.WriteHeader (w : ResponseWriter) (code : Nat) : ResponseWriter :=
  match w.status with
  | none => { w with status := some code }
  | some _ => w

/-- Go `w.Write`: a write before any `WriteHeader` implies status 200. -/
def ResponseWriter.write (w : ResponseWriter) (x : Written) : ResponseWriter :=
  let w1 := w.WriteHeader 200
  { w1 with body := w1.body ++ [x] }

/-- Go `json.NewEncoder(w).Encode(map[string]interface{}{...})`. -/
def jsonEncode (w : ResponseWriter) (fields : List (String × JsonAtom)) : ResponseWriter :=
  w.write (.jsonMap fields)

/-- Go `http.SetCookie(w, cookie)`. -/
def httpSetCookie (w : ResponseWriter) (c : Cookie) : ResponseWriter :=
  { w with cookies := w.cookies ++ [c] }

/-- Go `http.StatusText(code)`, for the status codes the program uses. -/
def StatusText (code : Nat) : String :=
  if code = 200 then "OK"
  else if code = 303 then "See Other"
  else if code = 401 then "Unauthorized"
  else if code = 405 then "Method Not Allowed"
  else if code = 500 then "Internal Server Error"
  else ""

/-- Go `http.Redirect(w, r, url, code)`: sets the `Location` header; when the writer had
no `Content-Type` yet and the method is GET or HEAD it sets
`Content-Type: text/html; charset=utf-8`; writes the status; and for GET, under the same
condition, writes the HTML note `<a href="url">StatusText</a>.` followed by two line
feeds. The path clean-up and escaping the library applies to `url` leave the two URLs
the program redirects to, `/login` and `/`, as they are, so `url` is used as given. -/
def httpRedirect (w : ResponseWriter) (r : Request) (url : String) (code : Nat) :
    ResponseWriter :=
  let hadCT := (w.headerGet "Content-Type").isSome
  let w1 := w.headerSet "Location" url
  let w2 :=
    if !hadCT && (r.method == "GET" || r.method == "HEAD") then
      w1.headerSet "Content-Type" "text/html; charset=utf-8"
    else w1
  let w3 := w2.WriteHeader code
  if !hadCT && r.method == "GET" then
    w3.write (.text ("<a href=\"" ++ url ++ "\">" ++ StatusText code ++ "</a>.\n\n"))
  else w3

/-- Go `http.Error(w, msg, code)`. -/
def httpError (w : ResponseWriter) (msg : String) (code : Nat) : ResponseWriter :=
  (((w.headerSet "Content-Type" "text/plain; charset=utf-8").headerSet
    "X-Content-Type-Options" "nosniff").WriteHeader code).write (.text (msg ++ "\n"))

/-- Go `http.StatusSeeOther`. -/
def StatusSeeOther : Nat := 303
/-- Go `http.StatusUnauthorized`. -/
def StatusUnauthorized : Nat := 401
/-- Go `http.StatusMethodNotAllowed`. -/
def StatusMethodNotAllowed : Nat := 405
/-- Go `http.StatusInternalServerError`. -/
def StatusInternalServerError : Nat := 500
/-- Go `http.MethodPost`. -/
def MethodPost : String := "POST"

/-! ## Database (schema of `createTables`, main.go lines 148-174) -/

/-- A row of `users`: `username VARCHAR(50) NOT NULL UNIQUE`, `password VARCHAR(255)
NOT NULL`. The columns `id` and `created_at` are assigned by the store and never read
by the program. -/
structure UserRow where
  username : String
  password : String
  deriving DecidableEq, Repr

/-- A row of `products`: `id INT PRIMARY KEY`, `name VARCHAR(100) NOT NULL`,
`price DECIMAL(10,2)` and `quantity INT`, the last two nullable. -/
structure ProductRow where
  id : Int
  name : String
  price : Option Int
  quantity : Option Int
  deriving DecidableEq, Repr

/-- The two tables behind the package variable `db`. Strings are compared exactly and
`VARCHAR(n)` sizes are counted in bytes. -/
structure Database where
  users : List UserRow
  products : List ProductRow
  deriving DecidableEq, Repr

/-- Statement `SELECT password FROM users WHERE username = ?` read with `QueryRow(...).Scan`:
the first matching row, `none` for `sql.ErrNoRows`. -/
def Database.selectPassword (db : Database) (username : String) : Option String :=
  (db.users.find? (fun u => u.username == username)).map (fun u => u.password)

/-- Statement `SELECT COUNT(*) FROM users WHERE username = ?`. -/
def Database.countUsers (db : Database) (username : String) : Except String Nat :=
  .ok (db.users.filter (fun u => u.username == username)).length

/-- Statement `INSERT INTO users (username, password) VALUES (?, ?)`: refused (`none`) when a
value does not fit its column or the username is already there (`UNIQUE`). -/
def Database.insertUser (db : Database) (username password : String) : Option Database :=
  if username.utf8ByteSize > 50 || password.utf8ByteSize > 255
      || db.users.any (fun u => u.username == username) then none
  else some { db with users := db.users ++ [{ username := username, password := password }] }

/-- Tests whether some suffix of the text satisfies `f`. -/
def anySuffix (f : List Char → Bool) : List Char → Bool
  | [] => f []
  | c :: t => f (c :: t) || anySuffix f t

/-- SQL `text LIKE pattern` with the wildcards `%` (any run of characters) and `_`
(any one character); every other pattern character stands for itself. The bracket
classes SQL Server adds are not interpreted. -/
def likeMatch : List Char → List Char → Bool
  | [], t => t.isEmpty
  | a :: p, t =>
    if a = '%' then anySuffix (likeMatch p) t
    else match t with
      | [] => false
      | c :: t1 => (a == '_' || a == c) && likeMatch p t1

/-- Statement `SELECT id, name, price, quantity FROM products WHERE id = ?`. -/
def Database.selectProductsById (db : Database) (id : Int) :
    Except String (List ProductRow) :=
  .ok (db.products.filter (fun p => p.id == id))

/-- Statement `SELECT id, name, price, quantity FROM products WHERE name LIKE ?`. -/
def Database.selectProductsLike (db : Database) (pattern : String) :
    Except String (List ProductRow) :=
  .ok (db.products.filter (fun p => likeMatch pattern.toList p.name.toList))

/-- Go `rows.Scan(&p.ID, &p.Name, &p.Price, &p.Quantity)`: fails (`none`) on a NULL price
or quantity, which cannot be stored in a `float64` or an `int`. -/
def scanProduct (row : ProductRow) : Option Product :=
  match row.price, row.quantity with
  | some price, some quantity =>
    some { ID := row.id, Name := row.name, Price := price, Quantity := quantity }
  | _, _ => none

/-- The loop `for rows.Next() { ...; if err := rows.Scan(...); err != nil { continue };
products = append(products, p) }`. -/
def scanRows (rows : List ProductRow) : List Product :=
  rows.filterMap scanProduct

/-! ## Program state and external libraries -/

/-- A call that leaves the process, or a wrapped handler being entered; recorded in
order so that theorems can speak about which calls were made. -/
inductive Event where
  | dbQuery (sql : String) (args : List String)
  | dbExec (sql : String) (args : List String)
  | bcryptGenerate (password : String)
  | bcryptCompare (hash password : String)
  | print (s : String)
  | handled (r : Request)
  deriving DecidableEq, Repr

/-- The package-level state: the `sessions` map, the database behind `db`, and the
record of calls made so far. -/
structure World where
  sessions : Sessions
  db : Database
  trace : List Event
  deriving DecidableEq, Repr

/-- Appends one event to the record. -/
def World.log (g : World) (e : Event) : World :=
  { g with trace := g.trace ++ [e] }

/-- The two functions of `golang.org/x/crypto/bcrypt` the program calls.
`GenerateFromPassword salt password` is `none` when the library returns an error
(`salt` is the randomness the call draws); `CompareHashAndPassword hash password` is
`true` when the library returns `nil`. -/
structure Bcrypt where
  GenerateFromPassword : Nat → String → Option String
  CompareHashAndPassword : String → String → Bool

/-- The contract of the hashing library the registration and login round trip rests on:
a hash that was produced fits the `password` column (a bcrypt hash has 60 bytes) and
verifies against the password it was made from. Nothing is asked about other
candidates, which the library may accept as well (it reads the first 72 bytes only). -/
def Bcrypt.Sound (bc : Bcrypt) : Prop :=
  ∀ salt password hash, bc.GenerateFromPassword salt password = some hash →
    hash.utf8ByteSize ≤ 255 ∧ bc.CompareHashAndPassword hash password = true

/-- An `http.HandlerFunc`, as a transformer of the response writer and the state. -/
abbrev HandlerFunc := ResponseWriter → Request → World → ResponseWriter × World

/-- The JSON failure body `{"success": false, "error": msg}`. -/
def failure (msg : String) : List (String × JsonAtom) :=
  [("success", .bool false), ("error", .str msg)]

/-- The JSON success body `{"success": true}`. -/
def success : List (String × JsonAtom) :=
  [("success", .bool true)]

/-! ## Auth middleware (main.go lines 75-99) -/

/-- Go `requireLogin(next)`; `now` is the clock reading `getSession` takes. -/
def requireLogin (next : HandlerFunc) (now : Int) : HandlerFunc :=
  fun w r g =>
    if !(getSession g.sessions r now).2 then
      (httpRedirect w r "/login" StatusSeeOther, g)
    else next w r g

/-- Go `requireLoginAPI(next)`; `now` is the clock reading `getSession` takes. -/
def requireLoginAPI (next : HandlerFunc) (now : Int) : HandlerFunc :=
  fun w r g =>
    let w1 := w.headerSet "Access-Control-Allow-Origin" "*"
    let w2 := w1.headerSet "Content-Type" "application/json"
    if !(getSession g.sessions r now).2 then
      (jsonEncode (w2.WriteHeader StatusUnauthorized) (failure "Not authenticated"), g)
    else next w2 r g

/-- A handler that does nothing but record the request it was entered with. -/
def recordingHandler : HandlerFunc :=
  fun w r g => (w, g.log (.handled r))

/-! ## Login, registration, logout (main.go lines 187-311) -/

/-- Go `handleLoginAPI`; `unixNano` and `now` are the two clock readings of
`createSession`. -/
def handleLoginAPI (bc : Bcrypt) (unixNano now : Int) : HandlerFunc :=
  fun w r g =>
    let w := w.headerSet "Content-Type" "application/json"
    if r.method != MethodPost then
      (jsonEncode (w.WriteHeader StatusMethodNotAllowed) (failure "Method not allowed"), g)
    else
      match r.creds with
      | none => (jsonEncode w (failure "Invalid request"), g)
      | some (username, password) =>
        let g := g.log (.dbQuery "SELECT password FROM users WHERE username = ?" [username])
        match g.db.selectPassword username with
        | none => (jsonEncode w (failure "Invalid username or password"), g)
        | some hash =>
          let g := g.log (.bcryptCompare hash password)
          if !bc.CompareHashAndPassword hash password then
            (jsonEncode w (failure "Invalid username or password"), g)
          else
            let (token, sessions) := createSession g.sessions username unixNano now
            let g := { g with sessions := sessions }
            let w := httpSetCookie w
              { name := sessionCookieName, value := token, path := "/", httpOnly := true,
                maxAge := 28800 }
            (jsonEncode w success, g)

/-- Go `handleRegisterAPI`; `salt` is the randomness drawn by the hashing call. -/
def handleRegisterAPI (bc : Bcrypt) (salt : Nat) : HandlerFunc :=
  fun w r g =>
    let w := w.headerSet "Content-Type" "application/json"
    if r.method != MethodPost then
      (jsonEncode (w.WriteHeader StatusMethodNotAllowed) (failure "Method not allowed"), g)
    else
      match r.creds with
      | none => (jsonEncode w (failure "Invalid request"), g)
      | some (username, password) =>
        if username.utf8ByteSize < 3 then
          (jsonEncode w (failure "Username must be at least 3 characters"), g)
        else if password.utf8ByteSize < 4 then
          (jsonEncode w (failure "Password must be at least 4 characters"), g)
        else
          let g := g.log (.dbQuery "SELECT COUNT(*) FROM users WHERE username = ?" [username])
          match g.db.countUsers username with
          | .error _ => (jsonEncode w (failure "Database error"), g)
          | .ok count =>
            if count > 0 then (jsonEncode w (failure "Username already taken"), g)
            else
              let g := g.log (.bcryptGenerate password)
              match bc.GenerateFromPassword salt password with
              | none => (jsonEncode w (failure "Error securing password"), g)
              | some hash =>
                let g := g.log
                  (.dbExec "INSERT INTO users (username, password) VALUES (?, ?)"
                    [username, hash])
                match g.db.insertUser username hash with
                | none => (jsonEncode w (failure "Error creating account"), g)
                | some db =>
                  let g := { g with db := db }
                  let g := g.log (.print ("New user registered: " ++ username ++ "\n"))
                  (jsonEncode w success, g)

/-- Go `handleLogout`. -/
def handleLogout : HandlerFunc :=
  fun w r g =>
    let g := match r.Cookie sessionCookieName with
      | some value => { g with sessions := deleteSession g.sessions value }
      | none => g
    let w := httpSetCookie w
      { name := sessionCookieName, value := "", path := "/", httpOnly := false, maxAge := -1 }
    (httpRedirect w r "/login" StatusSeeOther, g)

/-! ## Product search (main.go lines 383-408) -/

/-- Go `strconv.Atoi` with a 64-bit `int`: an optional sign, then one or more decimal
digits, and a value inside the `int` range; `none` stands for a non-nil error. -/
def strconvAtoi (s : String) : Option Int :=
  let cs := s.toList
  let signed : Bool × List Char :=
    match cs with
    | '-' :: t => (true, t)
    | '+' :: t => (false, t)
    | _ => (false, cs)
  let digits := signed.2
  if digits.isEmpty || !digits.all Char.isDigit then none
  else
    let magnitude : Nat := digits.foldl (fun a c => 10 * a + (c.toNat - 48)) 0
    let value : Int := if signed.1 then -(magnitude : Int) else magnitude
    if value < -9223372036854775808 || value > 9223372036854775807 then none
    else some value

/-- Go `r.URL.Query().Get(key)`: the first value of the key, or the empty string. -/
def Request.queryGet (r : Request) (key : String) : String :=
  (List.lookup key r.query).getD ""

/-- Go `searchProducts`. -/
def searchProducts : HandlerFunc :=
  fun w r g =>
    let searchTerm := r.queryGet "q"
    let result : Except String (List ProductRow) × World :=
      match strconvAtoi searchTerm with
      | some id =>
        (g.db.selectProductsById id,
          g.log (.dbQuery "SELECT id, name, price, quantity FROM products WHERE id = ?"
            [sprintfD id]))
      | none =>
        (g.db.selectProductsLike ("%" ++ searchTerm ++ "%"),
          g.log (.dbQuery "SELECT id, name, price, quantity FROM products WHERE name LIKE ?"
            ["%" ++ searchTerm ++ "%"]))
    match result.1 with
    | .error e => (httpError w e StatusInternalServerError, result.2)
    | .ok rows => (w.write (.jsonProducts (scanRows rows)), result.2)

/-- The value a run of decimal digit characters stands for, read left to right. -/
def decimalValue (cs : List Char) (start : Nat) : Nat :=
  cs.foldl (fun a c => 10 * a + (c.toNat - 48)) start

/-! ## Concrete inputs used to evaluate the handlers -/

/-- A `POST` request whose body decodes to the given credentials. -/
def credsRequest (username password : String) : Request :=
  { method := MethodPost, cookies := [], query := [], creds := some (username, password) }

/-- A `GET` request with the query string `q=<q>`. -/
def searchRequest (q : String) : Request :=
  { method := "GET", cookies := [], query := [("q", q)], creds := none }

/-- A stand-in for the hashing library on which the handlers can be evaluated: the hash
is the password itself, and passwords over 72 bytes are refused, as the library does in
its current versions. It meets `Bcrypt.Sound`. -/
def plainBcrypt : Bcrypt :=
  { GenerateFromPassword := fun _ password =>
      if password.utf8ByteSize > 72 then none else some password
    CompareHashAndPassword := fun hash password => hash == password }

/-- A state with no sessions and the given tables. -/
def worldOf (users : List UserRow) (products : List ProductRow) : World :=
  { sessions := [], db := { users := users, products := products }, trace := [] }

/-- The product table of the search scenario: Widget (id 1) and Gadget (id 2). -/
def demoProducts : List ProductRow :=
  [{ id := 1, name := "Widget", price := some 999, quantity := some 3 },
   { id := 2, name := "Gadget", price := some 500, quantity := some 1 }]

/-- The writer `requireLoginAPI` passes on: a fresh writer with its two headers set. -/
def apiWriter : ResponseWriter :=
  { header := [("Content-Type", "application/json"), ("Access-Control-Allow-Origin", "*")],
    status := none, cookies := [], body := [] }

/-! ## Session store: lemmas -/

theorem mapGet_mapSet_same (m : Sessions) (k : String) (v : session) :
    mapGet (mapSet m k v) k = some v := by
  simp [mapGet, mapSet, List.lookup]

theorem lookup_filter_ne (m : Sessions) (k j : String) (h : j ≠ k) :
    List.lookup j (m.filter (fun e => e.1 != k)) = List.lookup j m := by
  induction m with
  | nil => rfl
  | cons e m ih =>
    obtain ⟨a, b⟩ := e
    by_cases hak : a = k
    · subst hak
      have hja : (j == a) = false := by simpa using h
      simp [List.filter, List.lookup, hja, ih]
    · have hka : (a != k) = true := by simpa using hak
      simp only [List.filter, hka, List.lookup, ih]

theorem lookup_filter_same (m : Sessions) (k : String) :
    List.lookup k (m.filter (fun e => e.1 != k)) = none := by
  induction m with
  | nil => rfl
  | cons e m ih =>
    obtain ⟨a, b⟩ := e
    by_cases hak : a = k
    · subst hak
      simp [List.filter, ih]
    · have hka : (a != k) = true := by simpa using hak
      have hk : (k == a) = false := by simpa using fun h : k = a => hak h.symm
      simp only [List.filter, hka, List.lookup, hk, ih]

theorem mapGet_mapSet_other (m : Sessions) (k j : String) (v : session) (h : j ≠ k) :
    mapGet (mapSet m k v) j = mapGet m j := by
  have hjk : (j == k) = false := by simpa using h
  simp only [mapGet, mapSet, List.lookup, hjk]
  exact lookup_filter_ne m k j h

theorem mapGet_mapDelete_same (m : Sessions) (k : String) :
    mapGet (mapDelete m k) k = none :=
  lookup_filter_same m k

theorem mapDelete_absent (m : Sessions) (k : String) (h : mapGet m k = none) :
    mapDelete m k = m := by
  induction m with
  | nil => rfl
  | cons e m ih =>
    obtain ⟨a, b⟩ := e
    by_cases hak : k = a
    · subst hak
      simp [mapGet, List.lookup] at h
    · have hk : (k == a) = false := by simpa using hak
      have hka : (a != k) = true := by simpa using fun h : a = k => hak h.symm
      simp only [mapGet, List.lookup, hk] at h
      simp only [mapDelete, List.filter, hka]
      exact congrArg _ (ih h)

theorem getSession_of_cookie (sessions : Sessions) (r : Request) (now : Int) (token : String)
    (hr : r.Cookie sessionCookieName = some token) :
    getSession sessions r now =
      match mapGet sessions token with
      | none => ("", false)
      | some s => if now > s.expiresAt then ("", false) else (s.username, true) := by
  simp only [getSession, hr]

theorem cookie_requestWithToken (token : String) :
    (requestWithToken token).Cookie sessionCookieName = some token := by
  simp [requestWithToken, Request.Cookie, List.lookup]

theorem foldl_get_apply (sessions : Sessions) (lookups : List (Request × Int)) :
    (lookups.map (fun p => SessionOp.get p.1 p.2)).foldl SessionOp.apply sessions
      = sessions := by
  induction lookups with
  | nil => rfl
  | cons p ps ih => simpa [SessionOp.apply] using ih

/-! ## Decimal rendering: lemmas -/

theorem digitChar_value (k : Nat) (hk : k < 10) : (Nat.digitChar k).toNat - 48 = k := by
  interval_cases k <;> rfl

theorem digitChar_ne_minus (k : Nat) (hk : k < 10) : Nat.digitChar k ≠ '-' := by
  interval_cases k <;> decide

theorem toDigitsCore_value (fuel : Nat) : ∀ (n : Nat) (acc : List Char), n < fuel →
    decimalValue (Nat.toDigitsCore 10 fuel n acc) 0 = decimalValue acc n := by
  induction fuel with
  | zero => intro n acc h; omega
  | succ fuel ih =>
    intro n acc h
    have hmod : n % 10 < 10 := Nat.mod_lt _ (by norm_num)
    by_cases hq : n / 10 = 0
    · have hn : n % 10 = n := Nat.mod_eq_of_lt (by omega)
      have hd := digitChar_value _ hmod
      simp only [Nat.toDigitsCore, hq, if_true, decimalValue, List.foldl, hd, Nat.mul_zero,
        Nat.zero_add]
      rw [hn]
    · have hlt : n / 10 < fuel := by omega
      have := ih (n / 10) (Nat.digitChar (n % 10) :: acc) hlt
      simp only [Nat.toDigitsCore, hq, if_false]
      rw [this]
      simp only [decimalValue, List.foldl, digitChar_value _ hmod]
      congr 1
      omega

theorem toDigits_value (n : Nat) : decimalValue (Nat.toDigits 10 n) 0 = n := by
  have := toDigitsCore_value (n + 1) n [] (by omega)
  simpa [Nat.toDigits, decimalValue] using this

theorem toDigitsCore_head (fuel : Nat) : ∀ (n : Nat) (acc : List Char),
    (Nat.toDigitsCore 10 fuel n acc).head? ≠ some '-' ∨
      Nat.toDigitsCore 10 fuel n acc = acc := by
  induction fuel with
  | zero => intro n acc; right; rfl
  | succ fuel ih =>
    intro n acc
    have hmod : n % 10 < 10 := Nat.mod_lt _ (by norm_num)
    by_cases hq : n / 10 = 0
    · left
      simp [Nat.toDigitsCore, hq, digitChar_ne_minus _ hmod]
    · simp only [Nat.toDigitsCore, hq, if_false]
      rcases ih (n / 10) (Nat.digitChar (n % 10) :: acc) with h | h
      · exact Or.inl h
      · left
        rw [h]
        simp [digitChar_ne_minus _ hmod]

theorem toDigits_head (n : Nat) : (Nat.toDigits 10 n).head? ≠ some '-' := by
  rcases toDigitsCore_head (n + 1) n [] with h | h
  · exact h
  · simp [Nat.toDigits, h]

theorem sprintfD_injective (a b : Int) (h : sprintfD a = sprintfD b) : a = b := by
  unfold sprintfD at h
  have hdata := congrArg String.data h
  by_cases ha : a < 0 <;> by_cases hb : b < 0
  · simp only [ha, hb, if_true, List.cons.injEq, true_and] at hdata
    have := congrArg (fun l => decimalValue l 0) hdata
    simp only [toDigits_value] at this
    omega
  · simp only [ha, hb, if_true, if_false] at hdata
    exact absurd (by rw [← hdata]; rfl) (toDigits_head b.toNat)
  · simp only [ha, hb, if_true, if_false] at hdata
    exact absurd (by rw [hdata]; rfl) (toDigits_head a.toNat)
  · simp only [ha, hb, if_false] at hdata
    have := congrArg (fun l => decimalValue l 0) hdata
    simp only [toDigits_value] at this
    omega

theorem sessionDuration_eq : sessionDuration = 8 * 3600 * 1000000000 := by
  decide

theorem getSession_after_create (sessions : Sessions) (username : String)
    (unixNano now : Int) (r : Request) (t : Int)
    (hr : r.Cookie sessionCookieName = some (createSession sessions username unixNano now).1) :
    getSession (createSession sessions username unixNano now).2 r t =
      if t ≤ now + sessionDuration then (username, true) else ("", false) := by
  rw [getSession_of_cookie _ _ _ _ hr]
  simp only [createSession, mapGet_mapSet_same]
  by_cases h : t ≤ now + sessionDuration
  · simp [h, not_lt.mpr h]
  · simp [h, not_le.mp h]

/-! ## Claims about the session store -/

/-- C1: `getSession` reports a valid session exactly when the request carries a cookie
whose token has an entry in the map and `now` is not after that entry's `expiresAt`;
the username returned is then the stored one, and in every other case the result is
the empty username with `valid = false`. -/
theorem getSession_exact (sessions : Sessions) (r : Request) (now : Int) :
    ((getSession sessions r now).2 = true ↔
      ∃ token s, r.Cookie sessionCookieName = some token ∧
        mapGet sessions token = some s ∧ now ≤ s.expiresAt) ∧
    (∀ token s, r.Cookie sessionCookieName = some token → mapGet sessions token = some s →
      now ≤ s.expiresAt → getSession sessions r now = (s.username, true)) ∧
    ((¬ ∃ token s, r.Cookie sessionCookieName = some token ∧
        mapGet sessions token = some s ∧ now ≤ s.expiresAt) →
      getSession sessions r now = ("", false)) := by
  cases hc : r.Cookie sessionCookieName with
  | none =>
    have hres : getSession sessions r now = ("", false) := by simp only [getSession, hc]
    rw [hres]
    simp
  | some value =>
    cases hm : mapGet sessions value with
    | none =>
      have hres : getSession sessions r now = ("", false) := by
        rw [getSession_of_cookie _ _ _ _ hc, hm]
      rw [hres]
      refine ⟨?_, ?_, fun _ => rfl⟩
      · constructor
        · intro h; cases h
        · rintro ⟨token, s, ht, hs, _⟩
          cases ht
          rw [hm] at hs
          cases hs
      · intro token s ht hs _
        cases ht
        rw [hm] at hs
        cases hs
    | some s =>
      by_cases hlt : now > s.expiresAt
      · have hres : getSession sessions r now = ("", false) := by
          rw [getSession_of_cookie _ _ _ _ hc, hm]
          simp only [hlt, if_true]
        rw [hres]
        refine ⟨?_, ?_, fun _ => rfl⟩
        · constructor
          · intro h; cases h
          · rintro ⟨token, s1, ht, hs, hle⟩
            cases ht
            rw [hm] at hs
            cases hs
            exact absurd hlt (not_lt.mpr hle)
        · intro token s1 ht hs hle
          cases ht
          rw [hm] at hs
          cases hs
          exact absurd hlt (not_lt.mpr hle)
      · have hle : now ≤ s.expiresAt := not_lt.mp hlt
        have hres : getSession sessions r now = (s.username, true) := by
          rw [getSession_of_cookie _ _ _ _ hc, hm]
          simp only [hlt, if_false]
        rw [hres]
        refine ⟨⟨fun _ => ⟨value, s, rfl, hm, hle⟩, fun _ => rfl⟩, ?_, ?_⟩
        · intro token s1 ht hs1 _
          cases ht
          rw [hm] at hs1
          cases hs1
          rfl
        · intro hno
          exact absurd ⟨value, s, rfl, hm, hle⟩ hno

/-- Witness for C1: an entry expiring at 100 is found valid at time 100. -/
theorem getSession_exact_witness :
    getSession [("5", { username := "alice", expiresAt := 100 })] (requestWithToken "5") 100
      = ("alice", true) :=
  (getSession_exact [("5", { username := "alice", expiresAt := 100 })]
    (requestWithToken "5") 100).2.1 "5" { username := "alice", expiresAt := 100 }
    (by decide) (by decide) (by decide)

/-- C2: the token returned by `createSession` at time `t` looks up valid, with the
username it was created for, at every time up to `t` plus 8 hours (8 * 3600 seconds of
10^9 nanoseconds) and invalid at every later time, whatever lookups happened in
between: a run of lookups leaves the session map as it was. -/
theorem createSession_fixed_lifetime (sessions : Sessions) (username : String)
    (unixNano t : Int) (lookups : List (Request × Int)) (r : Request) (t' : Int)
    (hr : r.Cookie sessionCookieName = some (createSession sessions username unixNano t).1) :
    (lookups.map (fun p => SessionOp.get p.1 p.2)).foldl SessionOp.apply
        (createSession sessions username unixNano t).2
      = (createSession sessions username unixNano t).2 ∧
    getSession
        ((lookups.map (fun p => SessionOp.get p.1 p.2)).foldl SessionOp.apply
          (createSession sessions username unixNano t).2) r t'
      = if t' ≤ t + 8 * 3600 * 1000000000 then (username, true) else ("", false) := by
  rw [foldl_get_apply, ← sessionDuration_eq]
  exact ⟨rfl, getSession_after_create sessions username unixNano t r t' hr⟩

/-- Witness for C2: a session created at time 7 is, after two lookups in between, still
valid exactly 8 hours later (28800000000000 ns) and invalid one nanosecond after that. -/
theorem createSession_fixed_lifetime_witness :
    getSession
        (([(requestWithToken "5", (9 : Int)), (requestWithToken "6", 10)].map
            (fun p => SessionOp.get p.1 p.2)).foldl SessionOp.apply
          (createSession [] "alice" 5 7).2) (requestWithToken "5") 28800000000007
      = ("alice", true) ∧
    getSession
        (([(requestWithToken "5", (9 : Int)), (requestWithToken "6", 10)].map
            (fun p => SessionOp.get p.1 p.2)).foldl SessionOp.apply
          (createSession [] "alice" 5 7).2) (requestWithToken "5") 28800000000008
      = ("", false) :=
  ⟨(createSession_fixed_lifetime [] "alice" 5 7
      [(requestWithToken "5", 9), (requestWithToken "6", 10)] (requestWithToken "5")
      28800000000007 (by decide)).2.trans (if_pos (by decide)),
   (createSession_fixed_lifetime [] "alice" 5 7
      [(requestWithToken "5", 9), (requestWithToken "6", 10)] (requestWithToken "5")
      28800000000008 (by decide)).2.trans (if_neg (by decide))⟩

/-- C3: after `deleteSession` a lookup of the token reports invalid at any time; deleting
a token that has no entry leaves the map as it is; deleting twice gives the same map as
deleting once, and so does logging out twice with the same cookie. -/
theorem deleteSession_final_idempotent (sessions : Sessions) (token : String) (r : Request)
    (now : Int) (hr : r.Cookie sessionCookieName = some token) :
    getSession (deleteSession sessions token) r now = ("", false) ∧
    (mapGet sessions token = none → deleteSession sessions token = sessions) ∧
    deleteSession (deleteSession sessions token) token = deleteSession sessions token ∧
    (∀ (w1 w2 : ResponseWriter) (g : World), g.sessions = sessions →
      (handleLogout w2 r (handleLogout w1 r g).2).2 = (handleLogout w1 r g).2 ∧
      (handleLogout w1 r g).2.sessions = deleteSession sessions token) := by
  have hgone : mapGet (deleteSession sessions token) token = none :=
    mapGet_mapDelete_same sessions token
  have htwice : deleteSession (deleteSession sessions token) token
      = deleteSession sessions token :=
    mapDelete_absent _ _ hgone
  refine ⟨?_, mapDelete_absent sessions token, htwice, ?_⟩
  · rw [getSession_of_cookie _ _ _ _ hr, hgone]
  · intro w1 w2 g hg
    subst hg
    simp only [handleLogout, hr, htwice, and_self]

/-- Witness for C3: revoking token "5" from a map that holds it. -/
theorem deleteSession_final_idempotent_witness :
    getSession (deleteSession [("5", { username := "alice", expiresAt := 100 })] "5")
      (requestWithToken "5") 1 = ("", false) :=
  (deleteSession_final_idempotent [("5", { username := "alice", expiresAt := 100 })] "5"
    (requestWithToken "5") 1 (by decide)).1

/-- C9, as stated, fails: two `createSession` calls for different usernames that read
the same clock value for the token return the same token, and the second call replaces
the entry of the first, so the first caller's token now looks up the second username. -/
theorem createSession_same_clock_collides :
    (createSession [] "alice" 5 5).1 = (createSession (createSession [] "alice" 5 5).2 "bob" 5 6).1 ∧
    getSession (createSession [] "alice" 5 5).2 (requestWithToken "5") 7 = ("alice", true) ∧
    getSession (createSession (createSession [] "alice" 5 5).2 "bob" 5 6).2
      (requestWithToken (createSession [] "alice" 5 5).1) 7 = ("bob", true) := by
  decide

/-- C9, amended: two `createSession` calls whose token clock readings differ return
distinct tokens; after both, each token looks up valid with its own username until its
own expiry; and a create leaves the entry of every other token as it was. -/
theorem createSession_distinct_clock (sessions : Sessions) (userA userB : String)
    (nanoA nanoB tA tB t' : Int) (hclock : nanoA ≠ nanoB) :
    (createSession sessions userA nanoA tA).1
      ≠ (createSession (createSession sessions userA nanoA tA).2 userB nanoB tB).1 ∧
    getSession (createSession (createSession sessions userA nanoA tA).2 userB nanoB tB).2
        (requestWithToken (createSession sessions userA nanoA tA).1) t'
      = (if t' ≤ tA + sessionDuration then (userA, true) else ("", false)) ∧
    getSession (createSession (createSession sessions userA nanoA tA).2 userB nanoB tB).2
        (requestWithToken
          (createSession (createSession sessions userA nanoA tA).2 userB nanoB tB).1) t'
      = (if t' ≤ tB + sessionDuration then (userB, true) else ("", false)) ∧
    (∀ other, other ≠ (createSession sessions userB nanoB tB).1 →
      mapGet (createSession sessions userB nanoB tB).2 other = mapGet sessions other) := by
  have hne : newSessionToken nanoA ≠ newSessionToken nanoB :=
    fun h => hclock (sprintfD_injective _ _ h)
  refine ⟨hne, ?_, ?_, ?_⟩
  · rw [getSession_of_cookie _ _ _ _ (cookie_requestWithToken _)]
    have hkeep : mapGet
        (createSession (createSession sessions userA nanoA tA).2 userB nanoB tB).2
        (createSession sessions userA nanoA tA).1
        = some { username := userA, expiresAt := tA + sessionDuration } := by
      simp only [createSession]
      rw [mapGet_mapSet_other _ _ _ _ hne, mapGet_mapSet_same]
    rw [hkeep]
    by_cases h : t' ≤ tA + sessionDuration
    · simp [h, not_lt.mpr h]
    · simp [h, not_le.mp h]
  · exact getSession_after_create _ userB nanoB tB _ t' (cookie_requestWithToken _)
  · intro other hother
    exact mapGet_mapSet_other _ _ _ _ hother

/-- Witness for C9 amended: clock readings 5 and 6 give distinct tokens. -/
theorem createSession_distinct_clock_witness :
    (createSession [] "alice" 5 5).1
      ≠ (createSession (createSession [] "alice" 5 5).2 "bob" 6 6).1 :=
  (createSession_distinct_clock [] "alice" "bob" 5 6 5 6 7 (by decide)).1

/-! ## Claims about the middleware -/

/-- C4: a handler wrapped by `requireLoginAPI` or `requireLogin` is entered, with the
same request, exactly when `getSession` reports a valid session; otherwise it is not
entered, the state is untouched, and `requireLoginAPI` answers 401 with the body
`{"success": false, "error": "Not authenticated"}` while `requireLogin` answers 303
with `Location: /login` (plus, as `http.Redirect` does, the HTML content type for GET
and HEAD and the HTML note for GET). On the API path both headers are set on either
branch. -/
theorem requireLogin_gate (next : HandlerFunc) (now : Int) (r : Request) (g : World) :
    requireLoginAPI next now ResponseWriter.fresh r g =
      (if (getSession g.sessions r now).2 = true then next apiWriter r g
       else ({ header := [("Content-Type", "application/json"),
                          ("Access-Control-Allow-Origin", "*")],
               status := some 401, cookies := [],
               body := [.jsonMap [("success", .bool false),
                                  ("error", .str "Not authenticated")]] }, g)) ∧
    requireLogin next now ResponseWriter.fresh r g =
      (if (getSession g.sessions r now).2 = true then next ResponseWriter.fresh r g
       else if r.method = "GET" then
         ({ header := [("Content-Type", "text/html; charset=utf-8"), ("Location", "/login")],
            status := some 303, cookies := [],
            body := [.text "<a href=\"/login\">See Other</a>.\n\n"] }, g)
       else if r.method = "HEAD" then
         ({ header := [("Content-Type", "text/html; charset=utf-8"), ("Location", "/login")],
            status := some 303, cookies := [], body := [] }, g)
       else
         ({ header := [("Location", "/login")], status := some 303, cookies := [],
            body := [] }, g)) ∧
    ((httpRedirect ResponseWriter.fresh r "/login" StatusSeeOther).status = some 303 ∧
      (httpRedirect ResponseWriter.fresh r "/login" StatusSeeOther).headerGet "Location"
        = some "/login") ∧
    (apiWriter.headerGet "Access-Control-Allow-Origin" = some "*" ∧
      apiWriter.headerGet "Content-Type" = some "application/json") ∧
    (requireLoginAPI recordingHandler now ResponseWriter.fresh r g).2.trace =
      (if (getSession g.sessions r now).2 = true then g.trace ++ [.handled r]
       else g.trace) ∧
    (requireLogin recordingHandler now ResponseWriter.fresh r g).2.trace =
      (if (getSession g.sessions r now).2 = true then g.trace ++ [.handled r]
       else g.trace) := by
  have hw : (ResponseWriter.fresh.headerSet "Access-Control-Allow-Origin" "*").headerSet
      "Content-Type" "application/json" = apiWriter := by decide
  have hreject : jsonEncode (apiWriter.WriteHeader StatusUnauthorized)
      (failure "Not authenticated") =
      { header := [("Content-Type", "application/json"),
                   ("Access-Control-Allow-Origin", "*")],
        status := some 401, cookies := [],
        body := [.jsonMap [("success", .bool false),
                           ("error", .str "Not authenticated")]] } := by decide
  have hredirect : httpRedirect ResponseWriter.fresh r "/login" StatusSeeOther =
      (if r.method = "GET" then
         { header := [("Content-Type", "text/html; charset=utf-8"), ("Location", "/login")],
           status := some 303, cookies := [],
           body := [.text "<a href=\"/login\">See Other</a>.\n\n"] }
       else if r.method = "HEAD" then
         { header := [("Content-Type", "text/html; charset=utf-8"), ("Location", "/login")],
           status := some 303, cookies := [], body := [] }
       else
         { header := [("Location", "/login")], status := some 303, cookies := [],
           body := [] }) := by
    have hnoCT : (ResponseWriter.fresh.headerGet "Content-Type").isSome = false := by decide
    by_cases hget : r.method = "GET"
    · have hbody : ("<a href=\"" ++ "/login" ++ "\">" ++ StatusText StatusSeeOther
          ++ "</a>.\n\n") = "<a href=\"/login\">See Other</a>.\n\n" := by decide
      simp only [httpRedirect, hnoCT, hget, hbody, beq_self_eq_true, Bool.true_or,
        Bool.not_false, Bool.and_self, if_true]
      decide
    · have hg : (r.method == "GET") = false := by simpa using hget
      by_cases hhead : r.method = "HEAD"
      · simp only [httpRedirect, hnoCT, hg, hhead, beq_self_eq_true, Bool.or_true,
          Bool.not_false, Bool.and_self, Bool.and_false, if_true, if_false, hget,
          Bool.false_eq_true]
        decide
      · have hh : (r.method == "HEAD") = false := by simpa using hhead
        simp only [httpRedirect, hnoCT, hg, hh, Bool.or_self, Bool.and_false,
          if_false, hget, hhead, Bool.false_eq_true]
        decide
  have hstatus : (httpRedirect ResponseWriter.fresh r "/login" StatusSeeOther).status
        = some 303 ∧
      (httpRedirect ResponseWriter.fresh r "/login" StatusSeeOther).headerGet "Location"
        = some "/login" := by
    rw [hredirect]
    by_cases hget : r.method = "GET"
    · rw [if_pos hget]; decide
    · rw [if_neg hget]
      by_cases hhead : r.method = "HEAD"
      · rw [if_pos hhead]; decide
      · rw [if_neg hhead]; decide
  refine ⟨?_, ?_, hstatus, by decide, ?_, ?_⟩
  · simp only [requireLoginAPI, hw, hreject]
    cases (getSession g.sessions r now).2 <;> simp
  · simp only [requireLogin, hredirect]
    cases (getSession g.sessions r now).2
    · by_cases hget : r.method = "GET"
      · simp [hget]
      · by_cases hhead : r.method = "HEAD"
        · simp [hhead]
        · simp [hget, hhead]
    · simp
  · simp only [requireLoginAPI, recordingHandler]
    cases (getSession g.sessions r now).2 <;> simp [World.log]
  · simp only [requireLogin, recordingHandler]
    cases (getSession g.sessions r now).2 <;> simp [World.log]

/-! ## Login and registration: lemmas -/

theorem jsonEncode_body (w : ResponseWriter) (fields : List (String × JsonAtom)) :
    (jsonEncode w fields).body = w.body ++ [.jsonMap fields] := by
  unfold jsonEncode ResponseWriter.write ResponseWriter.WriteHeader
  cases w.status <;> rfl

theorem jsonEncode_cookies (w : ResponseWriter) (fields : List (String × JsonAtom)) :
    (jsonEncode w fields).cookies = w.cookies := by
  unfold jsonEncode ResponseWriter.write ResponseWriter.WriteHeader
  cases w.status <;> rfl

theorem handleLoginAPI_absent (bc : Bcrypt) (unixNano now : Int) (w : ResponseWriter)
    (r : Request) (g : World) (username password : String)
    (hm : r.method = MethodPost) (hc : r.creds = some (username, password))
    (hno : g.db.selectPassword username = none) :
    handleLoginAPI bc unixNano now w r g =
      (jsonEncode (w.headerSet "Content-Type" "application/json")
          (failure "Invalid username or password"),
        g.log (.dbQuery "SELECT password FROM users WHERE username = ?" [username])) := by
  simp [handleLoginAPI, hm, hc, World.log, hno]

theorem handleLoginAPI_present (bc : Bcrypt) (unixNano now : Int) (w : ResponseWriter)
    (r : Request) (g : World) (username password hash : String)
    (hm : r.method = MethodPost) (hc : r.creds = some (username, password))
    (hrow : g.db.selectPassword username = some hash) :
    handleLoginAPI bc unixNano now w r g =
      if bc.CompareHashAndPassword hash password = true then
        (jsonEncode
          (httpSetCookie (w.headerSet "Content-Type" "application/json")
            { name := sessionCookieName, value := newSessionToken unixNano, path := "/",
              httpOnly := true, maxAge := 28800 }) success,
          { sessions := (createSession g.sessions username unixNano now).2, db := g.db,
            trace := g.trace ++
              [.dbQuery "SELECT password FROM users WHERE username = ?" [username],
               .bcryptCompare hash password] })
      else
        (jsonEncode (w.headerSet "Content-Type" "application/json")
            (failure "Invalid username or password"),
          { sessions := g.sessions, db := g.db,
            trace := g.trace ++
              [.dbQuery "SELECT password FROM users WHERE username = ?" [username],
               .bcryptCompare hash password] }) := by
  cases hcmp : bc.CompareHashAndPassword hash password <;>
    simp [handleLoginAPI, hm, hc, World.log, hrow, hcmp, createSession]

/-! ## Claims about login and registration -/

/-- C5: a login with a username that is in the store and a password that does not
verify, and a login with a username that is not in the store, get the same response
(status, headers, body with the same error message, no cookie), and neither adds a
session. -/
theorem login_no_disclosure (bc : Bcrypt) (unixNano now : Int) (w : ResponseWriter)
    (r1 r2 : Request) (g : World) (u1 p1 u2 p2 hash : String)
    (hm1 : r1.method = MethodPost) (hc1 : r1.creds = some (u1, p1))
    (hm2 : r2.method = MethodPost) (hc2 : r2.creds = some (u2, p2))
    (hpresent : g.db.selectPassword u1 = some hash)
    (hwrong : bc.CompareHashAndPassword hash p1 = false)
    (habsent : g.db.selectPassword u2 = none) :
    (handleLoginAPI bc unixNano now w r1 g).1 = (handleLoginAPI bc unixNano now w r2 g).1 ∧
    (handleLoginAPI bc unixNano now w r1 g).1.body
      = w.body ++ [.jsonMap [("success", .bool false),
                             ("error", .str "Invalid username or password")]] ∧
    (handleLoginAPI bc unixNano now w r1 g).1.cookies = w.cookies ∧
    (handleLoginAPI bc unixNano now w r1 g).2.sessions = g.sessions ∧
    (handleLoginAPI bc unixNano now w r2 g).2.sessions = g.sessions ∧
    (handleLoginAPI bc unixNano now w r1 g).2.db = g.db ∧
    (handleLoginAPI bc unixNano now w r2 g).2.db = g.db := by
  rw [handleLoginAPI_absent bc unixNano now w r2 g u2 p2 hm2 hc2 habsent,
    handleLoginAPI_present bc unixNano now w r1 g u1 p1 hash hm1 hc1 hpresent]
  simp only [hwrong, Bool.false_eq_true, if_false, jsonEncode_body, jsonEncode_cookies]
  exact ⟨trivial, rfl, rfl, trivial, rfl, trivial, rfl⟩

/-- Witness for C5: alice with a wrong password against an unknown user. -/
theorem login_no_disclosure_witness :
    (handleLoginAPI plainBcrypt 5 5 ResponseWriter.fresh (credsRequest "alice" "wrong")
        (worldOf [{ username := "alice", password := "pw1234" }] [])).1
      = (handleLoginAPI plainBcrypt 5 5 ResponseWriter.fresh (credsRequest "mallory" "wrong")
        (worldOf [{ username := "alice", password := "pw1234" }] [])).1 :=
  (login_no_disclosure plainBcrypt 5 5 ResponseWriter.fresh (credsRequest "alice" "wrong")
    (credsRequest "mallory" "wrong")
    (worldOf [{ username := "alice", password := "pw1234" }] [])
    "alice" "wrong" "mallory" "wrong" "pw1234" rfl rfl rfl rfl (by decide) (by decide)
    (by decide)).1

/-- C7: with a username shorter than 3 bytes registration answers the username error;
otherwise with a password shorter than 4 bytes it answers the password error; in both
cases the state comes back untouched, its record of database and hashing calls
included. When both lengths are sufficient the answer is neither of the two errors. -/
theorem register_validation_first (bc : Bcrypt) (salt : Nat) (w : ResponseWriter)
    (r : Request) (g : World) (username password : String)
    (hm : r.method = MethodPost) (hc : r.creds = some (username, password)) :
    (username.utf8ByteSize < 3 →
      handleRegisterAPI bc salt w r g =
        (jsonEncode (w.headerSet "Content-Type" "application/json")
          [("success", .bool false), ("error", .str "Username must be at least 3 characters")],
          g)) ∧
    (3 ≤ username.utf8ByteSize → password.utf8ByteSize < 4 →
      handleRegisterAPI bc salt w r g =
        (jsonEncode (w.headerSet "Content-Type" "application/json")
          [("success", .bool false), ("error", .str "Password must be at least 4 characters")],
          g)) ∧
    (3 ≤ username.utf8ByteSize → 4 ≤ password.utf8ByteSize →
      ∃ fields, (handleRegisterAPI bc salt w r g).1.body = w.body ++ [.jsonMap fields] ∧
        fields ≠ [("success", .bool false),
                  ("error", .str "Username must be at least 3 characters")] ∧
        fields ≠ [("success", .bool false),
                  ("error", .str "Password must be at least 4 characters")]) := by
  refine ⟨?_, ?_, ?_⟩
  · intro hu
    simp [handleRegisterAPI, hm, hc, hu, failure]
  · intro hu hp
    simp [handleRegisterAPI, hm, hc, not_lt.mpr hu, hp, failure]
  · intro hu hp
    simp only [handleRegisterAPI, hm, hc, not_lt.mpr hu, not_lt.mpr hp, bne_self_eq_false,
      Bool.false_eq_true, if_false, Database.countUsers]
    split
    · exact ⟨_, jsonEncode_body _ _, by decide, by decide⟩
    · cases hgen : bc.GenerateFromPassword salt password with
      | none => exact ⟨_, jsonEncode_body _ _, by decide, by decide⟩
      | some hash =>
        simp only []
        split
        · exact ⟨_, jsonEncode_body _ _, by decide, by decide⟩
        · exact ⟨_, jsonEncode_body _ _, by decide, by decide⟩

/-- Witness for C7: the username "al" is refused before anything else happens. -/
theorem register_validation_first_witness :
    handleRegisterAPI plainBcrypt 0 ResponseWriter.fresh (credsRequest "al" "pw1234")
        (worldOf [] []) =
      (jsonEncode (ResponseWriter.fresh.headerSet "Content-Type" "application/json")
        [("success", .bool false), ("error", .str "Username must be at least 3 characters")],
        worldOf [] []) :=
  (register_validation_first plainBcrypt 0 ResponseWriter.fresh (credsRequest "al" "pw1234")
    (worldOf [] []) "al" "pw1234" rfl rfl).1 (by decide)

/-! ## Registration against the store: lemmas -/

theorem plainBcrypt_sound : plainBcrypt.Sound := by
  intro salt password hash h
  simp only [plainBcrypt] at h
  split at h
  · cases h
  · rename_i hsize
    cases h
    refine ⟨by omega, ?_⟩
    simp only [plainBcrypt, beq_self_eq_true]

theorem filter_username_absent (users : List UserRow) (username : String)
    (h : ∀ row ∈ users, row.username ≠ username) :
    users.filter (fun u => u.username == username) = [] := by
  rw [List.filter_eq_nil_iff]
  intro row hrow
  simpa using h row hrow

theorem any_username_absent (users : List UserRow) (username : String)
    (h : ∀ row ∈ users, row.username ≠ username) :
    users.any (fun u => u.username == username) = false := by
  rw [List.any_eq_false]
  intro row hrow
  simpa using h row hrow

theorem selectPassword_after_insert (users : List UserRow) (products : List ProductRow)
    (username hash : String) (h : ∀ row ∈ users, row.username ≠ username) :
    Database.selectPassword
      { users := users ++ [{ username := username, password := hash }],
        products := products } username = some hash := by
  have hnone : users.find? (fun u => u.username == username) = none := by
    rw [List.find?_eq_none]
    intro row hrow
    simpa using h row hrow
  simp [Database.selectPassword, List.find?_append, hnone]

theorem filter_username_present (users : List UserRow) (username : String)
    (h : ∃ row ∈ users, row.username = username) :
    0 < (users.filter (fun u => u.username == username)).length := by
  obtain ⟨row, hrow, hname⟩ := h
  apply List.length_pos_of_mem (a := row)
  rw [List.mem_filter]
  exact ⟨hrow, by simpa using hname⟩

theorem handleRegisterAPI_taken (bc : Bcrypt) (salt : Nat) (w : ResponseWriter)
    (r : Request) (g : World) (username password : String)
    (hm : r.method = MethodPost) (hc : r.creds = some (username, password))
    (hu : 3 ≤ username.utf8ByteSize) (hp : 4 ≤ password.utf8ByteSize)
    (hpresent : ∃ row ∈ g.db.users, row.username = username) :
    handleRegisterAPI bc salt w r g =
      (jsonEncode (w.headerSet "Content-Type" "application/json")
          (failure "Username already taken"),
        g.log (.dbQuery "SELECT COUNT(*) FROM users WHERE username = ?" [username])) := by
  have hcount := filter_username_present g.db.users username hpresent
  simp [handleRegisterAPI, hm, hc, not_lt.mpr hu, not_lt.mpr hp, Database.countUsers,
    World.log, hcount]

theorem handleRegisterAPI_created (bc : Bcrypt) (hbc : bc.Sound) (salt : Nat)
    (w : ResponseWriter) (r : Request) (g : World) (username password hash : String)
    (hm : r.method = MethodPost) (hc : r.creds = some (username, password))
    (hu : 3 ≤ username.utf8ByteSize) (hu50 : username.utf8ByteSize ≤ 50)
    (hp : 4 ≤ password.utf8ByteSize)
    (habsent : ∀ row ∈ g.db.users, row.username ≠ username)
    (hhash : bc.GenerateFromPassword salt password = some hash) :
    handleRegisterAPI bc salt w r g =
      (jsonEncode (w.headerSet "Content-Type" "application/json") success,
        { sessions := g.sessions,
          db := { users := g.db.users ++ [{ username := username, password := hash }],
                  products := g.db.products },
          trace := g.trace ++
            [.dbQuery "SELECT COUNT(*) FROM users WHERE username = ?" [username],
             .bcryptGenerate password,
             .dbExec "INSERT INTO users (username, password) VALUES (?, ?)" [username, hash],
             .print ("New user registered: " ++ username ++ "\n")] }) := by
  have hfit := (hbc salt password hash hhash).1
  have hcount := filter_username_absent g.db.users username habsent
  have hany := any_username_absent g.db.users username habsent
  simp [handleRegisterAPI, hm, hc, not_lt.mpr hu, not_lt.mpr hp, Database.countUsers,
    World.log, hcount, hhash, Database.insertUser, not_lt.mpr hu50, not_lt.mpr hfit, hany]

/-! ## Claims about registration -/

/-- C6, as stated, fails: registration of a new username of at least 3 bytes with a
password of at least 4 bytes does not always succeed. A username of 51 bytes does not
fit the `VARCHAR(50)` column and is answered "Error creating account"; a password the
hashing library refuses is answered "Error securing password". -/
theorem register_new_user_can_fail :
    plainBcrypt.Sound ∧
    3 ≤ (String.mk (List.replicate 51 'a')).utf8ByteSize ∧
    (handleRegisterAPI plainBcrypt 0 ResponseWriter.fresh
        (credsRequest (String.mk (List.replicate 51 'a')) "pw1234") (worldOf [] [])).1.body
      = [.jsonMap [("success", .bool false), ("error", .str "Error creating account")]] ∧
    (handleRegisterAPI plainBcrypt 0 ResponseWriter.fresh
        (credsRequest "alice" (String.mk (List.replicate 73 'x'))) (worldOf [] [])).1.body
      = [.jsonMap [("success", .bool false), ("error", .str "Error securing password")]] :=
  ⟨plainBcrypt_sound, by decide, by decide, by decide⟩

/-- C6, amended: for a username of 3 to 50 bytes that is not in the store and a password
of at least 4 bytes that the hashing library accepts, registration succeeds and stores
the hash, and a login with the same credentials on the resulting state succeeds, sets
the session cookie, and the cookie's token looks up that username until it expires 8
hours after the login. Of the hashing library only this is assumed: a hash it produced
fits the column and verifies against the password it was made from. -/
theorem register_then_login (bc : Bcrypt) (hbc : bc.Sound) (salt : Nat) (unixNano now : Int)
    (w1 w2 : ResponseWriter) (r1 r2 : Request) (g : World) (username password hash : String)
    (hm1 : r1.method = MethodPost) (hc1 : r1.creds = some (username, password))
    (hm2 : r2.method = MethodPost) (hc2 : r2.creds = some (username, password))
    (hu : 3 ≤ username.utf8ByteSize) (hu50 : username.utf8ByteSize ≤ 50)
    (hp : 4 ≤ password.utf8ByteSize)
    (habsent : ∀ row ∈ g.db.users, row.username ≠ username)
    (hhash : bc.GenerateFromPassword salt password = some hash) :
    (handleRegisterAPI bc salt w1 r1 g).1.body = w1.body ++ [.jsonMap [("success", .bool true)]] ∧
    (handleRegisterAPI bc salt w1 r1 g).2.db.users
      = g.db.users ++ [{ username := username, password := hash }] ∧
    (handleLoginAPI bc unixNano now w2 r2 (handleRegisterAPI bc salt w1 r1 g).2).1.body
      = w2.body ++ [.jsonMap [("success", .bool true)]] ∧
    (handleLoginAPI bc unixNano now w2 r2 (handleRegisterAPI bc salt w1 r1 g).2).1.cookies
      = w2.cookies ++ [{ name := "pms_session", value := newSessionToken unixNano,
                         path := "/", httpOnly := true, maxAge := 28800 }] ∧
    (∀ t', getSession
        (handleLoginAPI bc unixNano now w2 r2 (handleRegisterAPI bc salt w1 r1 g).2).2.sessions
        (requestWithToken (newSessionToken unixNano)) t'
      = if t' ≤ now + 8 * 3600 * 1000000000 then (username, true) else ("", false)) := by
  have hverify : bc.CompareHashAndPassword hash password = true :=
    (hbc salt password hash hhash).2
  rw [handleRegisterAPI_created bc hbc salt w1 r1 g username password hash hm1 hc1 hu hu50 hp
    habsent hhash]
  rw [handleLoginAPI_present bc unixNano now w2 r2 _ username password hash hm2 hc2
    (selectPassword_after_insert g.db.users g.db.products username hash habsent)]
  rw [if_pos hverify]
  refine ⟨?_, rfl, ?_, ?_, fun t' => ?_⟩
  · rw [jsonEncode_body]; rfl
  · rw [jsonEncode_body]; rfl
  · rw [jsonEncode_cookies]; rfl
  rw [← sessionDuration_eq]
  exact getSession_after_create g.sessions username unixNano now _ t'
    (cookie_requestWithToken _)

/-- Witness for C6 amended: alice registers with "pw1234" and logs in. -/
theorem register_then_login_witness :
    (handleLoginAPI plainBcrypt 5 5 ResponseWriter.fresh (credsRequest "alice" "pw1234")
        (handleRegisterAPI plainBcrypt 0 ResponseWriter.fresh (credsRequest "alice" "pw1234")
          (worldOf [] [])).2).1.body
      = ResponseWriter.fresh.body ++ [.jsonMap [("success", .bool true)]] :=
  (register_then_login plainBcrypt plainBcrypt_sound 0 5 5 ResponseWriter.fresh
    ResponseWriter.fresh (credsRequest "alice" "pw1234") (credsRequest "alice" "pw1234")
    (worldOf [] []) "alice" "pw1234" "pw1234" rfl rfl rfl rfl (by decide) (by decide)
    (by decide) (by decide) (by decide)).2.2.1

/-- C8, as stated, fails in its last clause: when the password offered with the
duplicate registration is the one the existing user already has, the registration is
refused with "Username already taken" and that password does log in afterwards. -/
theorem duplicate_register_same_password_logs_in :
    (handleRegisterAPI plainBcrypt 0 ResponseWriter.fresh (credsRequest "alice" "pw1234")
        (worldOf [{ username := "alice", password := "pw1234" }] [])).1.body
      = [.jsonMap [("success", .bool false), ("error", .str "Username already taken")]] ∧
    (handleLoginAPI plainBcrypt 5 5 ResponseWriter.fresh (credsRequest "alice" "pw1234")
        (handleRegisterAPI plainBcrypt 0 ResponseWriter.fresh (credsRequest "alice" "pw1234")
          (worldOf [{ username := "alice", password := "pw1234" }] [])).2).1.body
      = [.jsonMap [("success", .bool true)]] := by
  decide

/-- C8, amended: registering a username that is already in the store, with lengths that
pass validation, is answered "Username already taken" and leaves the users table and
the sessions as they were; afterwards a password logs in for that username exactly when
it verifies against the hash that was already stored, so the original password still
does and the offered one does only if it already did. -/
theorem duplicate_register_rejected (bc : Bcrypt) (salt : Nat) (w : ResponseWriter)
    (r : Request) (g : World) (username password : String)
    (hm : r.method = MethodPost) (hc : r.creds = some (username, password))
    (hu : 3 ≤ username.utf8ByteSize) (hp : 4 ≤ password.utf8ByteSize)
    (hpresent : ∃ row ∈ g.db.users, row.username = username) :
    (handleRegisterAPI bc salt w r g).1.body
      = w.body ++ [.jsonMap [("success", .bool false),
                             ("error", .str "Username already taken")]] ∧
    (handleRegisterAPI bc salt w r g).2.db = g.db ∧
    (handleRegisterAPI bc salt w r g).2.sessions = g.sessions ∧
    (∀ (stored candidate : String) (unixNano now : Int) (w2 : ResponseWriter) (r2 : Request),
      g.db.selectPassword username = some stored →
      r2.method = MethodPost → r2.creds = some (username, candidate) →
      ((handleLoginAPI bc unixNano now w2 r2 (handleRegisterAPI bc salt w r g).2).1.body
          = w2.body ++ [.jsonMap [("success", .bool true)]]
        ↔ bc.CompareHashAndPassword stored candidate = true)) := by
  rw [handleRegisterAPI_taken bc salt w r g username password hm hc hu hp hpresent]
  refine ⟨jsonEncode_body _ _, rfl, rfl, ?_⟩
  intro stored candidate unixNano now w2 r2 hstored hm2 hc2
  rw [handleLoginAPI_present bc unixNano now w2 r2 _ username candidate stored hm2 hc2
    (by simpa [World.log] using hstored)]
  cases hcmp : bc.CompareHashAndPassword stored candidate
  · simp [jsonEncode_body, failure, ResponseWriter.headerSet]
  · simp [jsonEncode_body, success, ResponseWriter.headerSet, httpSetCookie]

/-- Witness for C8 amended: alice is registered, "other" is offered. -/
theorem duplicate_register_rejected_witness :
    (handleRegisterAPI plainBcrypt 0 ResponseWriter.fresh (credsRequest "alice" "other")
        (worldOf [{ username := "alice", password := "pw1234" }] [])).2.db
      = (worldOf [{ username := "alice", password := "pw1234" }] []).db :=
  (duplicate_register_rejected plainBcrypt 0 ResponseWriter.fresh
    (credsRequest "alice" "other")
    (worldOf [{ username := "alice", password := "pw1234" }] []) "alice" "other" rfl rfl
    (by decide) (by decide) (by decide)).2.1

/-! ## Pattern matching: lemmas -/

theorem anySuffix_iff (f : List Char → Bool) (t : List Char) :
    anySuffix f t = true ↔ ∃ s, s <:+ t ∧ f s = true := by
  induction t with
  | nil =>
    simp only [anySuffix, List.suffix_nil]
    exact ⟨fun h => ⟨[], rfl, h⟩, fun ⟨s, hs, h⟩ => hs ▸ h⟩
  | cons c t ih =>
    simp only [anySuffix, Bool.or_eq_true, ih, List.suffix_cons_iff]
    constructor
    · rintro (h | ⟨s, hs, h⟩)
      · exact ⟨c :: t, Or.inl rfl, h⟩
      · exact ⟨s, Or.inr hs, h⟩
    · rintro ⟨s, hs | hs, h⟩
      · exact Or.inl (hs ▸ h)
      · exact Or.inr ⟨s, hs, h⟩

theorem likeMatch_literal_then_any (q : List Char)
    (hq : ∀ c ∈ q, c ≠ '%' ∧ c ≠ '_') :
    ∀ t, likeMatch (q ++ ['%']) t = true ↔ q <+: t := by
  induction q with
  | nil =>
    intro t
    simp only [List.nil_append, likeMatch, if_true, anySuffix_iff, List.nil_prefix, iff_true]
    exact ⟨[], List.nil_suffix, rfl⟩
  | cons a q ih =>
    intro t
    have ha := hq a (List.mem_cons_self a q)
    have ih1 := ih (fun c hc => hq c (List.mem_cons_of_mem a hc))
    cases t with
    | nil => simp [likeMatch, ha.1]
    | cons c t1 =>
      have hu : (a == '_') = false := by simpa using ha.2
      have hstep : likeMatch (a :: (q ++ ['%'])) (c :: t1)
          = ((a == '_' || a == c) && likeMatch (q ++ ['%']) t1) := by
        simp only [likeMatch, ha.1, if_false]
      rw [List.cons_append, hstep, hu, Bool.false_or, Bool.and_eq_true, beq_iff_eq, ih1 t1,
        List.cons_prefix_cons]

theorem likeMatch_contains (q t : List Char) (hq : ∀ c ∈ q, c ≠ '%' ∧ c ≠ '_') :
    likeMatch ('%' :: (q ++ ['%'])) t = true ↔ q <:+: t := by
  simp only [likeMatch, if_true, anySuffix_iff, likeMatch_literal_then_any q hq,
    List.infix_iff_prefix_suffix]
  constructor
  · rintro ⟨s, hs, hp⟩
    exact ⟨s, hp, hs⟩
  · rintro ⟨s, hp, hs⟩
    exact ⟨s, hs, hp⟩

theorem like_pattern_toList (q : String) :
    ("%" ++ q ++ "%").toList = '%' :: (q.toList ++ ['%']) := by
  simp [String.toList]

/-! ## Claims about search -/

/-- C10, as stated, fails twice. Its own example: over Widget and Gadget the query
"dge" returns both products, since "Widget" contains "dge" as well. And the query is
not taken literally: "_" does not parse as an integer and is not a substring of either
name, yet as a `LIKE` wildcard it matches both. -/
theorem search_term_dge_and_wildcard :
    (searchProducts ResponseWriter.fresh (searchRequest "dge") (worldOf [] demoProducts)).1.body
      = [.jsonProducts [{ ID := 1, Name := "Widget", Price := 999, Quantity := 3 },
                        { ID := 2, Name := "Gadget", Price := 500, Quantity := 1 }]] ∧
    strconvAtoi "_" = none ∧
    ¬ ("_".toList <:+: "Widget".toList) ∧ ¬ ("_".toList <:+: "Gadget".toList) ∧
    (searchProducts ResponseWriter.fresh (searchRequest "_") (worldOf [] demoProducts)).1.body
      = [.jsonProducts [{ ID := 1, Name := "Widget", Price := 999, Quantity := 3 },
                        { ID := 2, Name := "Gadget", Price := 500, Quantity := 1 }]] := by
  decide

/-- C10, amended: when `q` parses as an integer `n`, the search writes exactly the
scanned rows whose id is `n`; when it does not parse and contains none of the pattern
characters `%`, `_`, `[`, it writes exactly the scanned rows whose name contains `q` as
a substring, character for character. Over Widget (1) and Gadget (2): "1" gives only
Widget, "adg" gives only Gadget, and "dge" gives both. -/
theorem searchProducts_dispatch (w : ResponseWriter) (r : Request) (g : World) :
    (∀ n, strconvAtoi (r.queryGet "q") = some n →
      (searchProducts w r g).1
        = w.write (.jsonProducts (scanRows (g.db.products.filter (fun p => p.id == n))))) ∧
    (strconvAtoi (r.queryGet "q") = none →
      (∀ c ∈ (r.queryGet "q").toList, c ≠ '%' ∧ c ≠ '_' ∧ c ≠ '[') →
      (searchProducts w r g).1
        = w.write (.jsonProducts (scanRows (g.db.products.filter
            (fun p => decide ((r.queryGet "q").toList <:+: p.name.toList)))))) ∧
    (searchProducts ResponseWriter.fresh (searchRequest "1") (worldOf [] demoProducts)).1.body
      = [.jsonProducts [{ ID := 1, Name := "Widget", Price := 999, Quantity := 3 }]] ∧
    (searchProducts ResponseWriter.fresh (searchRequest "adg") (worldOf [] demoProducts)).1.body
      = [.jsonProducts [{ ID := 2, Name := "Gadget", Price := 500, Quantity := 1 }]] ∧
    (searchProducts ResponseWriter.fresh (searchRequest "dge") (worldOf [] demoProducts)).1.body
      = [.jsonProducts [{ ID := 1, Name := "Widget", Price := 999, Quantity := 3 },
                        { ID := 2, Name := "Gadget", Price := 500, Quantity := 1 }]] := by
  refine ⟨?_, ?_, by decide, by decide, by decide⟩
  · intro n hn
    simp only [searchProducts, hn, Database.selectProductsById]
  · intro hnone hplain
    simp only [searchProducts, hnone, Database.selectProductsLike, like_pattern_toList]
    congr 3
    apply List.filter_congr
    intro p _
    have hq : ∀ c ∈ (r.queryGet "q").toList, c ≠ '%' ∧ c ≠ '_' :=
      fun c hc => ⟨(hplain c hc).1, (hplain c hc).2.1⟩
    have := likeMatch_contains (r.queryGet "q").toList p.name.toList hq
    by_cases hin : (r.queryGet "q").toList <:+: p.name.toList
    · rw [this.mpr hin, decide_eq_true hin]
    · have hf : likeMatch ('%' :: ((r.queryGet "q").toList ++ ['%'])) p.name.toList = false := by
        cases hl : likeMatch ('%' :: ((r.queryGet "q").toList ++ ['%'])) p.name.toList
        · rfl
        · exact absurd (this.mp hl) hin
      rw [hf, decide_eq_false hin]

/-- Witness for C10 amended: the query "adg" over a table holding Gadget and a row
with a NULL price. -/
theorem searchProducts_dispatch_witness :
    (searchProducts ResponseWriter.fresh (searchRequest "adg")
        (worldOf [] [{ id := 2, name := "Gadget", price := some 500, quantity := some 1 },
                     { id := 3, name := "Padge", price := none, quantity := some 1 }])).1
      = ResponseWriter.fresh.write (.jsonProducts (scanRows
          ((worldOf [] [{ id := 2, name := "Gadget", price := some 500, quantity := some 1 },
                        { id := 3, name := "Padge", price := none, quantity := some 1 }]
            ).db.products.filter
            (fun p => decide (((searchRequest "adg").queryGet "q").toList <:+: p.name.toList))))) :=
  (searchProducts_dispatch ResponseWriter.fresh (searchRequest "adg")
    (worldOf [] [{ id := 2, name := "Gadget", price := some 500, quantity := some 1 },
                 { id := 3, name := "Padge", price := none, quantity := some 1 }])).2.1
    (by decide) (by decide)

end SDACTS
